import Mathlib

/-
Shallow embedding of the 389DS LDAP Replication Password Manager
(ldap-replication-manager): configuration model (internal/config/config.go),
password resolution and generation (internal/password), the LDAP manager
(internal/ldap/manager.go), the main rotation loop (cmd main.go), and the
error-49 log monitor (internal/monitor).

Go strings that are examined character by character are modelled as
`List Char`; other strings stay `String`.  Go's `crypto/rand` stream is
modelled as an explicit index oracle `Nat → Nat`; the recursive
retry-on-validation-failure of `generateSecurePassword` is modelled with
explicit fuel, `GenResult.outOfFuel` marking a computation that has not
returned within the given recursion depth.
-/

set_option maxRecDepth 4000

namespace LdapRepl

/-! ## Configuration (internal/config/config.go) -/

/-- `LDAPConfig` from config.go: connection settings. -/
structure LDAPConfig where
  host : String
  port : Nat
  bindDN : String
  password : String
  baseDN : String
  useTLS : Bool
  skipTLSVerify : Bool
  timeout : Nat
deriving Repr, DecidableEq

/-- `PasswordConfig` from config.go.  The Go `map[string]string` of
predefined passwords is modelled as an association list; `ExcludeChars`
is kept as a character list since it is consumed per character. -/
structure PasswordConfig where
  length : Nat
  includeUppercase : Bool
  includeLowercase : Bool
  includeNumbers : Bool
  includeSpecial : Bool
  excludeChars : List Char
  predefinedPasswords : List (String × String)
  defaultPassword : String
  generateRandom : Bool
deriving Repr, DecidableEq

/-- `GRPCConfig` from config.go. -/
structure GRPCConfig where
  enabled : Bool
  port : Nat
  logPaths : List String
  checkInterval : Nat
deriving Repr, DecidableEq

/-- `LoggingConfig` from config.go. -/
structure LoggingConfig where
  level : String
  file : String
  timestamps : Bool
deriving Repr, DecidableEq

/-- `Config` from config.go. -/
structure Config where
  ldap : LDAPConfig
  password : PasswordConfig
  grpc : GRPCConfig
  logging : LoggingConfig
deriving Repr, DecidableEq

/-- `setDefaults` from config.go, applied by `Load` after YAML parsing.
Each branch mirrors one `if` of the Go function.  Note that the four
character-class toggles are assigned unconditionally in the source
(`config.Password.IncludeUppercase = true` etc.), not guarded by a
zero-value check the way every other default is. -/
def setDefaults (c : Config) : Config :=
  { ldap :=
      { c.ldap with
        port := if c.ldap.port = 0 then 389 else c.ldap.port
        baseDN := if c.ldap.baseDN = "" then "cn=config" else c.ldap.baseDN
        timeout := if c.ldap.timeout = 0 then 30 else c.ldap.timeout }
    password :=
      { c.password with
        length := if c.password.length = 0 then 16 else c.password.length
        includeUppercase := true
        includeLowercase := true
        includeNumbers := true
        includeSpecial := true
        excludeChars :=
          if c.password.excludeChars = [] then "0O1lI".toList else c.password.excludeChars
        generateRandom :=
          if c.password.defaultPassword = "" ∧ c.password.predefinedPasswords = [] then
            true
          else c.password.generateRandom }
    grpc :=
      { c.grpc with
        port := if c.grpc.port = 0 then 50051 else c.grpc.port
        checkInterval := if c.grpc.checkInterval = 0 then 5 else c.grpc.checkInterval
        logPaths :=
          if c.grpc.logPaths = [] then
            ["/var/log/dirsrv/slapd-ldap/errors", "/var/log/dirsrv/slapd-ldap/access"]
          else c.grpc.logPaths }
    logging :=
      { c.logging with
        level := if c.logging.level = "" then "info" else c.logging.level
        timestamps := true } }

/-! ## Password generation (internal/password) -/

/-- Lowercase alphabet appended to the charset when `IncludeLowercase`. -/
def lowercaseChars : List Char := "abcdefghijklmnopqrstuvwxyz".toList

/-- Uppercase alphabet appended to the charset when `IncludeUppercase`. -/
def uppercaseChars : List Char := "ABCDEFGHIJKLMNOPQRSTUVWXYZ".toList

/-- Digit alphabet appended to the charset when `IncludeNumbers`. -/
def digitChars : List Char := "0123456789".toList

/-- Special-character alphabet, the literal used both in
`generateSecurePassword` and in `validatePassword`. -/
def specialChars : List Char := "!@#$%^&*()_+-=[]\x7b\x7d|;:,.<>?".toList

/-- The charset construction of `generateSecurePassword`: concatenates the
enabled class alphabets in source order (lowercase, uppercase, numbers,
special), then removes every excluded character
(`strings.ReplaceAll(charset, string(char), "")` per excluded char). -/
def buildCharset (p : PasswordConfig) : List Char :=
  let base :=
    (if p.includeLowercase then lowercaseChars else []) ++
    (if p.includeUppercase then uppercaseChars else []) ++
    (if p.includeNumbers then digitChars else []) ++
    (if p.includeSpecial then specialChars else [])
  p.excludeChars.foldl (fun acc ex => acc.filter (fun c => c != ex)) base

/-- The four booleans tracked by the scanning loop of `validatePassword`. -/
structure ClassFlags where
  hasLower : Bool
  hasUpper : Bool
  hasNumber : Bool
  hasSpecial : Bool
deriving Repr, DecidableEq

/-- One step of `validatePassword`'s `switch` over the password's
characters: the cases are mutually exclusive, first match wins. -/
def classify (f : ClassFlags) (c : Char) : ClassFlags :=
  if 'a' ≤ c ∧ c ≤ 'z' then { f with hasLower := true }
  else if 'A' ≤ c ∧ c ≤ 'Z' then { f with hasUpper := true }
  else if '0' ≤ c ∧ c ≤ '9' then { f with hasNumber := true }
  else if specialChars.contains c then { f with hasSpecial := true }
  else f

/-- The character scan of `validatePassword`. -/
def scanFlags : ClassFlags → List Char → ClassFlags
  | f, [] => f
  | f, c :: rest => scanFlags (classify f c) rest

/-- `validatePassword` from internal/password: `some msg` models a
returned error, `none` models success. -/
def validatePassword (p : PasswordConfig) (pw : List Char) : Option String :=
  if pw.length < p.length then some "password too short"
  else
    let f := scanFlags ⟨false, false, false, false⟩ pw
    if p.includeLowercase && !f.hasLower then some "password missing lowercase letters"
    else if p.includeUppercase && !f.hasUpper then some "password missing uppercase letters"
    else if p.includeNumbers && !f.hasNumber then some "password missing numbers"
    else if p.includeSpecial && !f.hasSpecial then some "password missing special characters"
    else none

/-- One generation attempt of `generateSecurePassword`: `length` draws
from the charset, the random source modelled by the oracle `randomAt`
(Go draws uniformly below `len(charset)`; `% charset.length` keeps the
model total).  The `'x'` default of `getD` is unreachable for a
non-empty charset. -/
def attemptPassword (charset : List Char) (len : Nat) (randomAt : Nat → Nat) : List Char :=
  (List.range len).map (fun i => charset.getD (randomAt i % charset.length) 'x')

/-- Result of a fuelled run of `generateSecurePassword`: `ok`/`err`
mirror the Go `(string, error)` returns, while `outOfFuel` records that
the source's unbounded retry recursion has not returned within the given
depth. -/
inductive GenResult where
  | ok (password : List Char)
  | err (msg : String)
  | outOfFuel
deriving Repr, DecidableEq

/-- The retry recursion of `generateSecurePassword`: generate, validate,
and on validation failure recurse (the source has no retry bound; each
retry consumes fresh randomness, modelled by shifting the oracle). -/
def generateAux (p : PasswordConfig) (charset : List Char) (randomAt : Nat → Nat) :
    Nat → GenResult
  | 0 => .outOfFuel
  | fuel + 1 =>
    match validatePassword p (attemptPassword charset p.length randomAt) with
    | none => .ok (attemptPassword charset p.length randomAt)
    | some _ => generateAux p charset (fun i => randomAt (i + p.length)) fuel

/-- `generateSecurePassword` from internal/password.  The only error the
source returns (besides a `crypto/rand` failure, not modelled: the
random oracle is total) is the empty-charset check. -/
def generateSecurePassword (p : PasswordConfig) (randomAt : Nat → Nat) (fuel : Nat) :
    GenResult :=
  let charset := buildCharset p
  if charset.length = 0 then .err "no characters available for password generation"
  else generateAux p charset randomAt fuel

/-! ## Password resolution (internal/password, GeneratePasswords) -/

/-- Go map lookup on the association-list model (first match). -/
def lookupStr (l : List (String × String)) (k : String) : Option String :=
  (l.find? (fun q => q.1 == k)).map (fun q => q.2)

/-- Go map lookup with the zero value `""` for a missing key. -/
def lookupD (l : List (String × String)) (k : String) (d : String) : String :=
  match lookupStr l k with
  | some v => v
  | none => d

/-- The per-agreement body of `Manager.GeneratePasswords`: a predefined
password (when present and non-empty) wins, else the default password
(when non-empty), else the empty string (the source prints an ERROR line
but still stores `""` in the map). -/
def resolvePassword (p : PasswordConfig) (name : String) : String :=
  match lookupStr p.predefinedPasswords name with
  | some pre =>
    if pre ≠ "" then pre
    else if p.defaultPassword ≠ "" then p.defaultPassword
    else ""
  | none =>
    if p.defaultPassword ≠ "" then p.defaultPassword
    else ""

/-! ## LDAP manager (internal/ldap/manager.go) -/

/-- `ReplicationAgreement` from manager.go. -/
structure ReplicationAgreement where
  Name : String
  Supplier : String
  Consumer : String
  BindDN : String
  DN : String
  Enabled : Bool
deriving Repr, DecidableEq

/-- `Manager` from manager.go: configuration plus the two mode booleans
(`eduMode`, `prodMode`; both false means dry-run) and the connection
flag. -/
structure Manager where
  config : Config
  eduMode : Bool
  prodMode : Bool
  connected : Bool
deriving Repr, DecidableEq

/-- `DiscoverReplicationAgreements` from manager.go: fails when not
connected, otherwise returns the two simulated agreements, whose
`Supplier` field is always the configured LDAP host. -/
def discoverReplicationAgreements (m : Manager) :
    Except String (List ReplicationAgreement) :=
  if m.connected = false then .error "not connected to LDAP server"
  else
    .ok
      [{ Name := "agreement-to-consumer1"
         Supplier := m.config.ldap.host
         Consumer := "consumer1.example.com"
         BindDN := "cn=replication manager,cn=config"
         DN := "cn=agreement-to-consumer1,cn=replica,cn=dc=example,dc=com,cn=mapping tree,cn=config"
         Enabled := true },
       { Name := "agreement-to-consumer2"
         Supplier := m.config.ldap.host
         Consumer := "consumer2.example.com"
         BindDN := "cn=replication manager,cn=config"
         DN := "cn=agreement-to-consumer2,cn=replica,cn=dc=example,dc=com,cn=mapping tree,cn=config"
         Enabled := true }]

/-- The DN embedded in the supplier-side modify command of
`GeneratePasswordUpdateCommand`
(`fmt.Sprintf("cn=%s,cn=replica,...", agreementName)`). -/
def supplierAgreementDN (agreementName : String) : String :=
  "cn=" ++ agreementName ++ ",cn=replica,cn=dc=example,dc=com,cn=mapping tree,cn=config"

/-- The consumer-side DN of `GeneratePasswordUpdateCommand`: the
well-known replication manager account. -/
def replicationManagerDN : String := "cn=replication manager,cn=config"

/-- The (host, dn, attribute, value) quadruple a generated modify
command writes to.  `GeneratePasswordUpdateCommand` inlines these in two
`fmt.Sprintf` calls that differ only in dn and attribute; the record
makes the write target of each branch addressable. -/
structure WriteTarget where
  host : String
  dn : String
  attr : String
  value : String
deriving Repr, DecidableEq

/-- Target derivation of `GeneratePasswordUpdateCommand`: the supplier
branch (`serverType == "supplier"`) writes `nsds5replicacredentials` on
the agreement DN; the other branch writes `userPassword` on the
replication manager account of the passed server. -/
def deriveWriteTarget (server agreementName newPassword serverType : String) : WriteTarget :=
  if serverType == "supplier" then
    { host := server
      dn := supplierAgreementDN agreementName
      attr := "nsds5replicacredentials"
      value := newPassword }
  else
    { host := server
      dn := replicationManagerDN
      attr := "userPassword"
      value := newPassword }

/-- The shared `ldapmodify ... << EOF` shape of both `fmt.Sprintf`
format strings in `GeneratePasswordUpdateCommand`. -/
def renderModifyCommand (bindDN : String) (port : Nat) (t : WriteTarget) : String :=
  "ldapmodify -x -D \"" ++ bindDN ++ "\" -W -H ldap://" ++ t.host ++ ":" ++
    toString port ++ " << EOF\ndn: " ++ t.dn ++ "\nchangetype: modify\nreplace: " ++
    t.attr ++ "\n" ++ t.attr ++ ": " ++ t.value ++ "\nEOF"

/-- `GeneratePasswordUpdateCommand` from manager.go.  Of the manager it
reads only `config.LDAP.BindDN` and `config.LDAP.Port`; it never reads
the mode flags. -/
def generatePasswordUpdateCommand (m : Manager)
    (server agreementName newPassword serverType : String) : String :=
  renderModifyCommand m.config.ldap.bindDN m.config.ldap.port
    (deriveWriteTarget server agreementName newPassword serverType)

/-- Observable effect of one `UpdateReplicationPassword` call:
`dryRunCommand` is the modify command the dry-run branch derives and
logs (the other branches derive none), `performedWrite` records whether
an actual LDAP modify was executed — `false` in every branch of the
source, including production mode, whose body is a simulation stub
("REAL LDAP OPERATIONS WOULD OCCUR HERE"). -/
structure UpdateOutcome where
  dryRunCommand : Option String
  performedWrite : Bool
deriving Repr, DecidableEq

/-- `UpdateReplicationPassword` from manager.go: error only when not
connected; otherwise the educational, production and dry-run branches
all log, perform no LDAP write, and return nil. -/
def updateReplicationPassword (m : Manager)
    (server agreementName newPassword serverType : String) :
    Except String UpdateOutcome :=
  if m.connected = false then .error "not connected to LDAP server"
  else if m.eduMode then .ok { dryRunCommand := none, performedWrite := false }
  else if m.prodMode then .ok { dryRunCommand := none, performedWrite := false }
  else
    .ok
      { dryRunCommand :=
          some (generatePasswordUpdateCommand m server agreementName newPassword serverType)
        performedWrite := false }

/-! ## Main rotation loop (cmd main.go) -/

/-- `Manager.GeneratePasswords`: resolves a password per agreement and
stores it under the agreement name (association-list model of the Go
map; the stored value is a function of the name alone, so map-overwrite
versus first-match is immaterial). -/
def generatePasswords (p : PasswordConfig) (agreements : List ReplicationAgreement) :
    List (String × String) :=
  agreements.map (fun a => (a.Name, resolvePassword p a.Name))

/-- One recorded call of `ldapManager.UpdateReplicationPassword` in
main's Step 4 loop: which agreement, which side (the `serverType`
string), which password was passed, and whether the call returned nil. -/
structure AttemptRecord where
  agreementName : String
  side : String
  password : String
  succeeded : Bool
deriving Repr, DecidableEq

/-- Step 4 of main (lines 123–141): per agreement, look the password up
in the generated map (Go zero value `""` on a missing key), attempt the
supplier-side update first, and on its failure `continue` — the
consumer-side update of that agreement is never attempted.  The updater
is abstracted as a boolean oracle (`true` = returned nil), since the
claims quantify over possible update outcomes. -/
def applyPasswordChanges (update : String → String → String → String → Bool)
    (passwords : List (String × String)) :
    List ReplicationAgreement → List AttemptRecord
  | [] => []
  | a :: rest =>
    let pw := lookupD passwords a.Name ""
    if update a.Supplier a.Name pw "supplier" then
      { agreementName := a.Name, side := "supplier", password := pw, succeeded := true } ::
      { agreementName := a.Name, side := "consumer", password := pw,
        succeeded := update a.Consumer a.Name pw "consumer" } ::
      applyPasswordChanges update passwords rest
    else
      { agreementName := a.Name, side := "supplier", password := pw, succeeded := false } ::
      applyPasswordChanges update passwords rest

/-! ## Error-49 monitor (internal/monitor) -/

/-- Model of Go `time.Time` values as they occur in the monitor: either
a wall-clock instant (`time.Now`, identified by its Unix seconds) or a
value assembled by `time.Parse` from the parsed calendar fields. -/
inductive MTime where
  | ofUnix (sec : Int)
  | ofParts (day month year hour minute second : Nat) (zoneMinutes : Int)
deriving Repr, DecidableEq

/-- `ErrorEvent` from internal/monitor. -/
structure ErrorEvent where
  timestamp : MTime
  agreementName : String
  logLine : String
  logFile : String
  severity : String
deriving Repr, DecidableEq

/-- The simulated log line hard-coded in `checkLogFile`. -/
def demoLogLine : String :=
  "[01/Sep/2025:13:54:42 -0500] conn=123 op=456 RESULT err=49 tag=97 nentries=0 etime=0 - Invalid credentials for replication agreement: agreement-to-consumer1"

/-- `GRPCMonitor.checkLogFile`: despite taking the watcher's
`lastPosition` pointer, the body never reads the file nor the position —
it emits the hard-coded demo event whenever the current Unix time is a
multiple of 30, and leaves the position untouched.  Result: the events
emitted by this poll, paired with the (unchanged) position. -/
def checkLogFile (logPath : String) (lastPosition : Int) (nowUnix : Int) :
    List ErrorEvent × Int :=
  if nowUnix % 30 == 0 then
    ([{ timestamp := MTime.ofUnix nowUnix
        agreementName := "agreement-to-consumer1"
        logLine := demoLogLine
        logFile := logPath
        severity := "ERROR" }],
     lastPosition)
  else ([], lastPosition)

/-- Go regexp `\s` class (`[\t\n\f\r ]`). -/
def isSpaceChar (c : Char) : Bool :=
  c == ' ' || c == '\t' || c == '\n' || c == '\r' || c == '\x0c'

/-- The `[:\s]` class of the error-49 pattern. -/
def isSepChar (c : Char) : Bool := c == ':' || isSpaceChar c

/-- The `[^\s,]` class capturing the agreement name. -/
def isTokenChar (c : Char) : Bool := !isSpaceChar c && !(c == ',')

/-- Literal `agreement` of the error-49 pattern. -/
def agreementWord : List Char := "agreement".toList

/-- Literal `err=49` of the error-49 pattern. -/
def errWord : List Char := "err=49".toList

/-- `.` in a Go regexp does not match a newline; spans matched by `.*`
must therefore be newline-free. -/
def noNewline (l : List Char) : Bool := !(l.contains '\n')

/-- The sublist `s[a:b)`. -/
def subList (s : List Char) (a b : Nat) : List Char := (s.drop a).take (b - a)

/-- Try to read `([^\s,]+)` after exactly `sepLen` separator characters:
the greedy capture is the maximal token run, present only when at least
one token character follows. -/
def captureToken (rest : List Char) (sepLen : Nat) : Option (List Char) :=
  match rest.drop sepLen with
  | [] => none
  | c :: t => if isTokenChar c then some ((c :: t).takeWhile isTokenChar) else none

/-- Backtracking over the greedy `[:\s]+`: try the longest separator run
first, shrinking while no token character follows (a shorter run can
succeed because `:` belongs to both classes). -/
def trySepLens (rest : List Char) : Nat → Option (List Char)
  | 0 => none
  | l + 1 =>
    match captureToken rest (l + 1) with
    | some cap => some cap
    | none => trySepLens rest l

/-- Match `agreement[:\s]+([^\s,]+)` at offset `k` of the tail and
return the capture. -/
def captureAt (t : List Char) (k : Nat) : Option (List Char) :=
  if agreementWord.isPrefixOf (t.drop k) then
    let rest := (t.drop k).drop 9
    trySepLens rest (rest.takeWhile isSepChar).length
  else none

/-- Does `err=49` occur ending at or before offset `k`?  (Required by
`.*err=49.*agreement`: the error marker precedes the agreement word.) -/
def errBefore (t : List Char) (k : Nat) : Bool :=
  (List.range k).any (fun e => decide (e + 6 ≤ k) && errWord.isPrefixOf (t.drop e))

/-- Check one candidate offset for the agreement word: the `.*` spans in
front must be newline-free and an `err=49` must precede. -/
def checkK (t : List Char) (k : Nat) : Option (List Char) :=
  if noNewline (t.take k) && errBefore t k then captureAt t k else none

/-- Greedy `.*agreement...`: scan candidate offsets from the largest
down. -/
def tailMatchAux (t : List Char) : Nat → Option (List Char)
  | 0 => checkK t 0
  | k + 1 =>
    match checkK t (k + 1) with
    | some cap => some cap
    | none => tailMatchAux t k

/-- Match `.*err=49.*agreement[:\s]+([^\s,]+)` against the part of the
line after the closing bracket, returning the agreement-name capture. -/
def tailMatch (t : List Char) : Option (List Char) := tailMatchAux t t.length

/-- For an opening bracket at `i`, try closing brackets `]` at ascending
`j` (the capture `(.*?)` is lazy, so the smallest workable `j` wins),
requiring the newline-free capture and a matching tail; returns
(timestamp text, agreement name). -/
def tryClose (s : List Char) (i j : Nat) : Option (List Char × List Char) :=
  if s.getD j 'x' == ']' && noNewline (subList s (i + 1) j) then
    match tailMatch (s.drop (j + 1)) with
    | some ag => some (subList s (i + 1) j, ag)
    | none => none
  else none

/-- The match of `ParseLogLine`'s pattern
`\[(.*?)\].*err=49.*agreement[:\s]+([^\s,]+)` on a log line: leftmost
`[` admitting a full match, lazy bracket capture, greedy agreement
capture.  Returns the two submatches (timestamp text, agreement
name). -/
def matchError49 (s : List Char) : Option (List Char × List Char) :=
  (List.range s.length).findSome? (fun i =>
    if s.getD i 'x' == '[' then
      ((List.range s.length).filter (fun j => decide (i < j))).findSome?
        (fun j => tryClose s i j)
    else none)

/-- Read exactly two digits, returning the value and the rest. -/
def parse2Digits (l : List Char) : Option (Nat × List Char) :=
  match l with
  | a :: b :: rest =>
    if a.isDigit && b.isDigit then
      some (((a.toNat - 48) * 10 + (b.toNat - 48)), rest)
    else none
  | _ => none

/-- Read exactly four digits, returning the value and the rest. -/
def parse4Digits (l : List Char) : Option (Nat × List Char) :=
  match l with
  | a :: b :: c :: d :: rest =>
    if a.isDigit && b.isDigit && c.isDigit && d.isDigit then
      some (((a.toNat - 48) * 1000 + (b.toNat - 48) * 100 +
             (c.toNat - 48) * 10 + (d.toNat - 48)), rest)
    else none
  | _ => none

/-- The twelve month abbreviations of the Go reference layout. -/
def monthNames : List (List Char) :=
  ["Jan".toList, "Feb".toList, "Mar".toList, "Apr".toList, "May".toList, "Jun".toList,
   "Jul".toList, "Aug".toList, "Sep".toList, "Oct".toList, "Nov".toList, "Dec".toList]

/-- Read a three-letter month abbreviation, returning its 1-based number
and the rest. -/
def parseMonth (l : List Char) : Option (Nat × List Char) :=
  match l with
  | a :: b :: c :: rest =>
    match monthNames.findIdx? (fun m => m == [a, b, c]) with
    | some idx => some (idx + 1, rest)
    | none => none
  | _ => none

/-- Expect a single literal character. -/
def expectChar (c : Char) (l : List Char) : Option (List Char) :=
  match l with
  | x :: rest => if x == c then some rest else none
  | [] => none

/-- Read the `-0700` numeric zone: a sign and four digits, as minutes
east of UTC. -/
def parseZone (l : List Char) : Option (Int × List Char) :=
  match l with
  | s :: rest =>
    if s == '+' || s == '-' then
      match parse2Digits rest with
      | some (hh, r2) =>
        match parse2Digits r2 with
        | some (mm, r3) =>
          some ((if s == '-' then -(hh * 60 + mm : Int) else (hh * 60 + mm : Int)), r3)
        | none => none
      | none => none
    else none
  | [] => none

/-- Model of `time.Parse("02/Jan/2006:15:04:05 -0700", s)`: the fixed
layout with basic range validation (day-of-month granularity per month
is not modelled) and full input consumption. -/
def parseTimestamp (l : List Char) : Option MTime := do
  let (day, r1) ← parse2Digits l
  let r2 ← expectChar '/' r1
  let (month, r3) ← parseMonth r2
  let r4 ← expectChar '/' r3
  let (year, r5) ← parse4Digits r4
  let r6 ← expectChar ':' r5
  let (hour, r7) ← parse2Digits r6
  let r8 ← expectChar ':' r7
  let (minute, r9) ← parse2Digits r8
  let r10 ← expectChar ':' r9
  let (second, r11) ← parse2Digits r10
  let r12 ← expectChar ' ' r11
  let (zone, r13) ← parseZone r12
  if r13 = [] ∧ 1 ≤ day ∧ day ≤ 31 ∧ hour ≤ 23 ∧ minute ≤ 59 ∧ second ≤ 59 then
    some (MTime.ofParts day month year hour minute second zone)
  else none

/-- Model of Go `strings.TrimSpace` on the characters that occur in log
lines. -/
def trimSpace (l : List Char) : List Char :=
  ((l.dropWhile isSpaceChar).reverse.dropWhile isSpaceChar).reverse

/-- `ParseLogLine` from internal/monitor: a line that does not match the
error-49 pattern yields an error (modelled `none`); a matching line
always yields an event, with the wall-clock time `now` substituted when
the bracketed timestamp fails to parse.  (`LogFile` is left at its Go
zero value by the source.) -/
def parseLogLine (now : MTime) (logLine : List Char) : Option ErrorEvent :=
  match matchError49 logLine with
  | none => none
  | some (tsText, agName) =>
    let timestamp :=
      match parseTimestamp tsText with
      | some t => t
      | none => now
    some
      { timestamp := timestamp
        agreementName := String.mk agName
        logLine := String.mk (trimSpace logLine)
        logFile := ""
        severity := "ERROR" }

/-! ## Concrete fixtures used in the theorems below -/

/-- A fully populated example configuration (the shape `Load` produces
for a minimal valid YAML file). -/
def cfgEx : Config :=
  { ldap :=
      { host := "ldap1.example.com", port := 389, bindDN := "cn=Directory Manager",
        password := "secret", baseDN := "cn=config", useTLS := false,
        skipTLSVerify := false, timeout := 30 }
    password :=
      { length := 16, includeUppercase := true, includeLowercase := true,
        includeNumbers := true, includeSpecial := true,
        excludeChars := "0O1lI".toList, predefinedPasswords := [],
        defaultPassword := "", generateRandom := true }
    grpc :=
      { enabled := false, port := 50051,
        logPaths := ["/var/log/dirsrv/slapd-ldap/errors"], checkInterval := 5 }
    logging := { level := "info", file := "", timestamps := true } }

/-- A connected dry-run manager (`eduMode = prodMode = false`). -/
def mDryEx : Manager :=
  { config := cfgEx, eduMode := false, prodMode := false, connected := true }

/-- A connected production-mode manager. -/
def mProdEx : Manager :=
  { config := cfgEx, eduMode := false, prodMode := true, connected := true }

/-- The first simulated agreement as discovered through `cfgEx`. -/
def agreementOne : ReplicationAgreement :=
  { Name := "agreement-to-consumer1"
    Supplier := "ldap1.example.com"
    Consumer := "consumer1.example.com"
    BindDN := "cn=replication manager,cn=config"
    DN := "cn=agreement-to-consumer1,cn=replica,cn=dc=example,dc=com,cn=mapping tree,cn=config"
    Enabled := true }

/-- The second simulated agreement as discovered through `cfgEx`. -/
def agreementTwo : ReplicationAgreement :=
  { Name := "agreement-to-consumer2"
    Supplier := "ldap1.example.com"
    Consumer := "consumer2.example.com"
    BindDN := "cn=replication manager,cn=config"
    DN := "cn=agreement-to-consumer2,cn=replica,cn=dc=example,dc=com,cn=mapping tree,cn=config"
    Enabled := true }

/-- A password configuration with no predefined passwords, no default
password, and random generation disabled: no password source at all. -/
def cfgNoSource : PasswordConfig :=
  { length := 16, includeUppercase := true, includeLowercase := true,
    includeNumbers := true, includeSpecial := true,
    excludeChars := "0O1lI".toList, predefinedPasswords := [],
    defaultPassword := "", generateRandom := false }

/-- Example agreement `agreement-A`. -/
def agA : ReplicationAgreement :=
  { Name := "agreement-A", Supplier := "sup1.example.com", Consumer := "con1.example.com",
    BindDN := "cn=replication manager,cn=config",
    DN := "cn=agreement-A,cn=replica,cn=dc=example,dc=com,cn=mapping tree,cn=config",
    Enabled := true }

/-- Example agreement `agreement-B`. -/
def agB : ReplicationAgreement :=
  { Name := "agreement-B", Supplier := "sup1.example.com", Consumer := "con2.example.com",
    BindDN := "cn=replication manager,cn=config",
    DN := "cn=agreement-B,cn=replica,cn=dc=example,dc=com,cn=mapping tree,cn=config",
    Enabled := true }

/-- Example resolved-password map for `agA`/`agB`. -/
def pwsEx : List (String × String) := [("agreement-A", "PwA"), ("agreement-B", "PwB")]

/-- An updater oracle that fails exactly the supplier-side update of
`agreement-A` and succeeds everywhere else. -/
def updOracle : String → String → String → String → Bool :=
  fun _server name _pw serverType => !(name == "agreement-A" && serverType == "supplier")

/-- A configuration file that explicitly disables the uppercase and
number character classes (`include_uppercase: false`,
`include_numbers: false`) and configures a default password. -/
def cfgFileTogglesOff : Config :=
  { ldap :=
      { host := "ldap1.example.com", port := 389, bindDN := "cn=Directory Manager",
        password := "secret", baseDN := "cn=config", useTLS := false,
        skipTLSVerify := false, timeout := 30 }
    password :=
      { length := 16, includeUppercase := false, includeLowercase := true,
        includeNumbers := false, includeSpecial := true,
        excludeChars := "0O1lI".toList, predefinedPasswords := [],
        defaultPassword := "DefaultPw", generateRandom := false }
    grpc :=
      { enabled := false, port := 50051,
        logPaths := ["/var/log/dirsrv/slapd-ldap/errors"], checkInterval := 5 }
    logging := { level := "info", file := "", timestamps := true } }

/-- A password policy with all four classes enabled and no exclusions,
used for a concrete successful generation run. -/
def cfgGen : PasswordConfig :=
  { length := 4, includeUppercase := true, includeLowercase := true,
    includeNumbers := true, includeSpecial := true, excludeChars := [],
    predefinedPasswords := [], defaultPassword := "", generateRandom := true }

/-- A random oracle whose first four draws pick `a`, `A`, `0`, `!` from
the 88-character full charset. -/
def streamGen : Nat → Nat := fun i => [0, 26, 52, 62].getD i 0

/-- The self-contradictory policy the spec names explicitly: length 1
with all four character classes required. -/
def cfgContradictory : PasswordConfig :=
  { length := 1, includeUppercase := true, includeLowercase := true,
    includeNumbers := true, includeSpecial := true, excludeChars := [],
    predefinedPasswords := [], defaultPassword := "", generateRandom := true }

/-- A recognizable error-49 line whose bracketed timestamp text `x` is
unparsable. -/
def malformedLine : List Char := "[x] err=49 agreement: a".toList

/-! ## Theorems -/

/-- C2 (divergence at a concrete input): production ("execute") mode of
`UpdateReplicationPassword` is a simulation stub — it performs no LDAP
write and never invokes the target-derivation logic
(`GeneratePasswordUpdateCommand`), while dry-run (preview) mode derives
its displayed command through exactly that shared, mode-independent
function.  So the claim's "the two modes differ only in whether the
write is actually performed" fails on the code: execute mode neither
computes the write target nor performs the write. -/
theorem production_mode_performs_no_write_and_derives_no_target :
    updateReplicationPassword mProdEx "ldap1.example.com" "agreement-to-consumer1"
        "NewPw7" "supplier" =
      Except.ok { dryRunCommand := none, performedWrite := false } ∧
    updateReplicationPassword mDryEx "ldap1.example.com" "agreement-to-consumer1"
        "NewPw7" "supplier" =
      Except.ok
        { dryRunCommand :=
            some (generatePasswordUpdateCommand mDryEx "ldap1.example.com"
              "agreement-to-consumer1" "NewPw7" "supplier")
          performedWrite := false } :=
  ⟨rfl, rfl⟩

/-- C3 (divergence at a concrete input): with no predefined password, no
default password and generation disabled, `GeneratePasswords` still
stores the empty string for the agreement, and main's Step 4 loop still
feeds that agreement to the updater, attempting both sides with the
empty password — the agreement is neither excluded nor withheld from
the updater's input. -/
theorem unresolved_agreement_gets_empty_password_and_stays_in_updater_input :
    generatePasswords cfgNoSource [agA] = [("agreement-A", "")] ∧
    applyPasswordChanges (fun _ _ _ _ => true) (generatePasswords cfgNoSource [agA]) [agA] =
      [{ agreementName := "agreement-A", side := "supplier", password := "",
         succeeded := true },
       { agreementName := "agreement-A", side := "consumer", password := "",
         succeeded := true }] := by
  exact ⟨rfl, rfl⟩

/-- C7 (divergence at a concrete input): `setDefaults` assigns all four
character-class toggles `true` unconditionally, so a configuration file
that disables uppercase and numbers is overridden and the generation
alphabet still contains uppercase letters and digits — the classes are
not independently toggleable. -/
theorem character_class_toggles_overridden_by_setDefaults :
    cfgFileTogglesOff.password.includeUppercase = false ∧
    cfgFileTogglesOff.password.includeNumbers = false ∧
    (setDefaults cfgFileTogglesOff).password.includeUppercase = true ∧
    (setDefaults cfgFileTogglesOff).password.includeNumbers = true ∧
    'A' ∈ buildCharset (setDefaults cfgFileTogglesOff).password ∧
    '2' ∈ buildCharset (setDefaults cfgFileTogglesOff).password := by
  refine ⟨rfl, rfl, rfl, rfl, ?_, ?_⟩ <;> decide

/-- C8 (divergence at a concrete input): `checkLogFile` ignores the log
content and the tracked position entirely — two successive polls over
(vacuously) unchanged content at Unix times 30 and 60 each emit the same
hard-coded historical event again, and the last-read position never
advances from 0. -/
theorem log_scan_reemits_without_position_advance :
    (checkLogFile "/var/log/dirsrv/slapd-ldap/errors" 0 30).2 = 0 ∧
    ((checkLogFile "/var/log/dirsrv/slapd-ldap/errors" 0 30).1.map
        (fun e => e.agreementName)) = ["agreement-to-consumer1"] ∧
    ((checkLogFile "/var/log/dirsrv/slapd-ldap/errors"
        ((checkLogFile "/var/log/dirsrv/slapd-ldap/errors" 0 30).2) 60).1.map
        (fun e => e.agreementName)) = ["agreement-to-consumer1"] := by
  refine ⟨rfl, ?_, ?_⟩ <;> rfl

/-- C10: `UpdateReplicationPassword` returns an error exactly when the
manager is not connected; for every connected manager it returns
success in every mode (educational, production, dry-run), so the
operation can never produce a per-side modify failure. -/
theorem update_succeeds_whenever_connected (m : Manager)
    (server agreementName newPassword serverType : String) :
    ((∃ e, updateReplicationPassword m server agreementName newPassword serverType =
        Except.error e) ↔ m.connected = false) ∧
    (m.connected = true →
      ∃ o, updateReplicationPassword m server agreementName newPassword serverType =
        Except.ok o) := by
  cases hcon : m.connected
  · constructor
    · constructor
      · intro _; rfl
      · intro _
        exact ⟨"not connected to LDAP server", by simp [updateReplicationPassword, hcon]⟩
    · intro htrue; exact absurd htrue (by simp)
  · constructor
    · constructor
      · rintro ⟨e, he⟩
        cases hedu : m.eduMode <;> cases hprod : m.prodMode <;>
          simp [updateReplicationPassword, hcon, hedu, hprod] at he
      · intro hfalse; exact absurd hfalse (by simp)
    · intro _
      cases hedu : m.eduMode
      · cases hprod : m.prodMode
        · exact ⟨{ dryRunCommand :=
                     some (generatePasswordUpdateCommand m server agreementName
                       newPassword serverType)
                   performedWrite := false },
            by simp [updateReplicationPassword, hcon, hedu, hprod]⟩
        · exact ⟨{ dryRunCommand := none, performedWrite := false },
            by simp [updateReplicationPassword, hcon, hedu, hprod]⟩
      · exact ⟨{ dryRunCommand := none, performedWrite := false },
          by simp [updateReplicationPassword, hcon, hedu]⟩

/-- C10 witness: a concrete connected production-mode manager returns
success. -/
theorem update_succeeds_whenever_connected_witness :
    ∃ o, updateReplicationPassword mProdEx "consumer1.example.com"
        "agreement-to-consumer1" "NewPw7" "consumer" = Except.ok o :=
  (update_succeeds_whenever_connected mProdEx "consumer1.example.com"
    "agreement-to-consumer1" "NewPw7" "consumer").2 rfl

/-- C4: for every agreement of a discovery result, the supplier-side
write target derived by `GeneratePasswordUpdateCommand` (a pure function
of its arguments, independent of any prior state) is the agreement's own
object DN with the `nsds5replicacredentials` attribute, and the
consumer-side target — derived from the consumer address main passes —
is the well-known replication manager account on the agreement's
consumer address with the `userPassword` attribute, never the supplier's
address. -/
theorem write_targets_deterministic_per_agreement_and_role
    (m : Manager) (ags : List ReplicationAgreement) (a : ReplicationAgreement)
    (newPassword : String)
    (hd : discoverReplicationAgreements m = Except.ok ags) (ha : a ∈ ags) :
    (deriveWriteTarget a.Supplier a.Name newPassword "supplier").host = a.Supplier ∧
    (deriveWriteTarget a.Supplier a.Name newPassword "supplier").dn = a.DN ∧
    (deriveWriteTarget a.Supplier a.Name newPassword "supplier").attr =
      "nsds5replicacredentials" ∧
    (deriveWriteTarget a.Supplier a.Name newPassword "supplier").value = newPassword ∧
    (deriveWriteTarget a.Consumer a.Name newPassword "consumer").host = a.Consumer ∧
    (deriveWriteTarget a.Consumer a.Name newPassword "consumer").dn =
      replicationManagerDN ∧
    (deriveWriteTarget a.Consumer a.Name newPassword "consumer").attr = "userPassword" ∧
    (deriveWriteTarget a.Consumer a.Name newPassword "consumer").value = newPassword ∧
    (a.Supplier ≠ a.Consumer →
      (deriveWriteTarget a.Consumer a.Name newPassword "consumer").host ≠ a.Supplier) := by
  unfold discoverReplicationAgreements at hd
  cases hcon : m.connected
  · rw [hcon] at hd; cases hd
  · rw [hcon] at hd
    simp only [Bool.true_eq_false, if_false] at hd
    injection hd with hags
    subst hags
    simp only [List.mem_cons, List.not_mem_nil, or_false] at ha
    rcases ha with ha | ha <;> subst ha <;>
      exact ⟨rfl, rfl, rfl, rfl, rfl, rfl, rfl, rfl, fun hne heq => hne heq.symm⟩

/-- C4 witness: the targets for the first discovered agreement under the
example configuration. -/
theorem write_targets_deterministic_per_agreement_and_role_witness :
    (deriveWriteTarget agreementOne.Supplier agreementOne.Name "NewPw7" "supplier").host =
      agreementOne.Supplier ∧
    (deriveWriteTarget agreementOne.Supplier agreementOne.Name "NewPw7" "supplier").dn =
      agreementOne.DN ∧
    (deriveWriteTarget agreementOne.Supplier agreementOne.Name "NewPw7" "supplier").attr =
      "nsds5replicacredentials" ∧
    (deriveWriteTarget agreementOne.Supplier agreementOne.Name "NewPw7" "supplier").value =
      "NewPw7" ∧
    (deriveWriteTarget agreementOne.Consumer agreementOne.Name "NewPw7" "consumer").host =
      agreementOne.Consumer ∧
    (deriveWriteTarget agreementOne.Consumer agreementOne.Name "NewPw7" "consumer").dn =
      replicationManagerDN ∧
    (deriveWriteTarget agreementOne.Consumer agreementOne.Name "NewPw7" "consumer").attr =
      "userPassword" ∧
    (deriveWriteTarget agreementOne.Consumer agreementOne.Name "NewPw7" "consumer").value =
      "NewPw7" ∧
    (agreementOne.Supplier ≠ agreementOne.Consumer →
      (deriveWriteTarget agreementOne.Consumer agreementOne.Name "NewPw7" "consumer").host ≠
        agreementOne.Supplier) :=
  write_targets_deterministic_per_agreement_and_role mDryEx [agreementOne, agreementTwo]
    agreementOne "NewPw7" rfl (List.mem_cons_self _ _)

/-- Every attempt recorded by the Step 4 loop names one of the processed
agreements. -/
theorem applyPasswordChanges_names (update : String → String → String → String → Bool)
    (passwords : List (String × String)) :
    ∀ (l : List ReplicationAgreement) (r : AttemptRecord),
      r ∈ applyPasswordChanges update passwords l →
        r.agreementName ∈ l.map (fun a => a.Name) := by
  intro l
  induction l with
  | nil => intro r hr; simp [applyPasswordChanges] at hr
  | cons a rest ih =>
    intro r hr
    unfold applyPasswordChanges at hr
    by_cases hs : update a.Supplier a.Name (lookupD passwords a.Name "") "supplier" = true
    · rw [if_pos hs] at hr
      simp only [List.mem_cons] at hr
      rcases hr with hr | hr | hr
      · subst hr; exact List.mem_cons_self _ _
      · subst hr; exact List.mem_cons_self _ _
      · exact List.mem_cons_of_mem _ (ih r hr)
    · rw [if_neg hs] at hr
      simp only [List.mem_cons] at hr
      rcases hr with hr | hr
      · subst hr; exact List.mem_cons_self _ _
      · exact List.mem_cons_of_mem _ (ih r hr)

/-- C1: in the trace of main's Step 4 loop, the attempts recorded for
any processed agreement are exactly: a failed supplier attempt alone
when the supplier-side update errors (zero consumer-side attempts for
that agreement), and otherwise the successful supplier attempt followed
by the consumer attempt — the supplier side is always attempted strictly
before the consumer side. -/
theorem supplier_update_precedes_consumer_and_gates_it
    (update : String → String → String → String → Bool)
    (passwords : List (String × String)) (ags : List ReplicationAgreement)
    (a : ReplicationAgreement)
    (hnd : (ags.map (fun x => x.Name)).Nodup) (ha : a ∈ ags) :
    (applyPasswordChanges update passwords ags).filter
        (fun r => r.agreementName == a.Name) =
      (if update a.Supplier a.Name (lookupD passwords a.Name "") "supplier" then
        [{ agreementName := a.Name, side := "supplier",
           password := lookupD passwords a.Name "", succeeded := true },
         { agreementName := a.Name, side := "consumer",
           password := lookupD passwords a.Name "",
           succeeded := update a.Consumer a.Name (lookupD passwords a.Name "") "consumer" }]
      else
        [{ agreementName := a.Name, side := "supplier",
           password := lookupD passwords a.Name "", succeeded := false }]) := by
  induction ags with
  | nil => cases ha
  | cons b rest ih =>
    rw [List.map_cons, List.nodup_cons] at hnd
    obtain ⟨hbnotin, hndrest⟩ := hnd
    rcases List.mem_cons.1 ha with hab | harest
    · subst hab
      have htail : (applyPasswordChanges update passwords rest).filter
          (fun r => r.agreementName == a.Name) = [] := by
        rw [List.filter_eq_nil_iff]
        intro r hr
        have hmem := applyPasswordChanges_names update passwords rest r hr
        simp only [Bool.not_eq_true, beq_eq_false_iff_ne, ne_eq]
        intro hname
        exact hbnotin (hname ▸ hmem)
      by_cases hs : update a.Supplier a.Name (lookupD passwords a.Name "") "supplier" = true
      · rw [if_pos hs]
        unfold applyPasswordChanges
        rw [if_pos hs]
        simp [List.filter_cons, htail]
      · rw [if_neg hs]
        unfold applyPasswordChanges
        rw [if_neg hs]
        simp [List.filter_cons, htail]
    · have hba : (b.Name == a.Name) = false := by
        rw [beq_eq_false_iff_ne]
        intro hname
        exact hbnotin (hname ▸ List.mem_map_of_mem (fun x => x.Name) harest)
      have htl := ih hndrest harest
      by_cases hs : update b.Supplier b.Name (lookupD passwords b.Name "") "supplier" = true
      · unfold applyPasswordChanges
        rw [if_pos hs]
        simpa [List.filter_cons, hba] using htl
      · unfold applyPasswordChanges
        rw [if_neg hs]
        simpa [List.filter_cons, hba] using htl

/-- C1 witness: with an updater that fails exactly `agreement-A`'s
supplier-side update, the trace over `[agA, agB]` records for
`agreement-A` only the failed supplier attempt. -/
theorem supplier_update_precedes_consumer_and_gates_it_witness :
    (applyPasswordChanges updOracle pwsEx [agA, agB]).filter
        (fun r => r.agreementName == "agreement-A") =
      [{ agreementName := "agreement-A", side := "supplier", password := "PwA",
         succeeded := false }] := by
  have h := supplier_update_precedes_consumer_and_gates_it updOracle pwsEx [agA, agB] agA
    (by decide) (List.mem_cons_self _ _)
  exact h.trans (by decide)

/-- Membership in the exclusion-filtered charset implies membership in
the base alphabet and absence from the exclusion list. -/
theorem mem_of_mem_removeExcluded (excl : List Char) :
    ∀ (cs : List Char) (c : Char),
      c ∈ excl.foldl (fun acc ex => acc.filter (fun x => x != ex)) cs →
        c ∈ cs ∧ c ∉ excl := by
  induction excl with
  | nil => intro cs c h; exact ⟨h, by simp⟩
  | cons ex rest ih =>
    intro cs c h
    rw [List.foldl_cons] at h
    obtain ⟨h1, h2⟩ := ih _ c h
    rw [List.mem_filter] at h1
    obtain ⟨hcs, hne⟩ := h1
    refine ⟨hcs, ?_⟩
    rw [List.mem_cons]
    rintro (hc | hc)
    · rw [bne_iff_ne] at hne; exact hne hc
    · exact h2 hc

/-- Every character of a generation attempt is drawn from the charset. -/
theorem attemptPassword_mem (charset : List Char) (len : Nat) (randomAt : Nat → Nat)
    (hne : charset ≠ []) : ∀ c ∈ attemptPassword charset len randomAt, c ∈ charset := by
  intro c hc
  unfold attemptPassword at hc
  rw [List.mem_map] at hc
  obtain ⟨i, _, rfl⟩ := hc
  have hlt : randomAt i % charset.length < charset.length :=
    Nat.mod_lt _ (List.length_pos.2 hne)
  rw [List.getD_eq_getElem charset 'x' hlt]
  exact List.getElem_mem _

/-- A successful fuelled generation run returns a validated attempt. -/
theorem generateAux_ok (p : PasswordConfig) (charset : List Char) :
    ∀ (fuel : Nat) (randomAt : Nat → Nat) (pw : List Char),
      generateAux p charset randomAt fuel = .ok pw →
        validatePassword p pw = none ∧
        ∃ r, pw = attemptPassword charset p.length r := by
  intro fuel
  induction fuel with
  | zero => intro r pw h; cases h
  | succ n ih =>
    intro r pw h
    unfold generateAux at h
    cases hv : validatePassword p (attemptPassword charset p.length r) with
    | none =>
      rw [hv] at h
      injection h with hpw
      subst hpw
      exact ⟨hv, r, rfl⟩
    | some msg =>
      rw [hv] at h
      exact ih _ pw h

/-- A conjunction of the form `a && !b` can only be false for true `a`
when `b` is true. -/
theorem and_not_false {a b : Bool} (h : (a && !b) = false) (ha : a = true) : b = true := by
  subst ha; cases b <;> simp_all

/-- What `validatePassword` success means: the length check passed and
every enabled character class's flag was set by the scan. -/
theorem validatePassword_none_spec (p : PasswordConfig) (pw : List Char)
    (h : validatePassword p pw = none) :
    p.length ≤ pw.length ∧
    (p.includeLowercase = true →
      (scanFlags ⟨false, false, false, false⟩ pw).hasLower = true) ∧
    (p.includeUppercase = true →
      (scanFlags ⟨false, false, false, false⟩ pw).hasUpper = true) ∧
    (p.includeNumbers = true →
      (scanFlags ⟨false, false, false, false⟩ pw).hasNumber = true) ∧
    (p.includeSpecial = true →
      (scanFlags ⟨false, false, false, false⟩ pw).hasSpecial = true) := by
  unfold validatePassword at h
  by_cases hlen : pw.length < p.length
  · simp [hlen] at h
  · rw [if_neg hlen] at h
    have hg : (p.includeLowercase &&
          !(scanFlags ⟨false, false, false, false⟩ pw).hasLower) = false ∧
        (p.includeUppercase &&
          !(scanFlags ⟨false, false, false, false⟩ pw).hasUpper) = false ∧
        (p.includeNumbers &&
          !(scanFlags ⟨false, false, false, false⟩ pw).hasNumber) = false ∧
        (p.includeSpecial &&
          !(scanFlags ⟨false, false, false, false⟩ pw).hasSpecial) = false := by
      cases hg1 : (p.includeLowercase &&
          !(scanFlags ⟨false, false, false, false⟩ pw).hasLower) <;>
        cases hg2 : (p.includeUppercase &&
          !(scanFlags ⟨false, false, false, false⟩ pw).hasUpper) <;>
        cases hg3 : (p.includeNumbers &&
          !(scanFlags ⟨false, false, false, false⟩ pw).hasNumber) <;>
        cases hg4 : (p.includeSpecial &&
          !(scanFlags ⟨false, false, false, false⟩ pw).hasSpecial) <;>
        simp [hg1, hg2, hg3, hg4] at h ⊢
    obtain ⟨hg1, hg2, hg3, hg4⟩ := hg
    exact ⟨Nat.le_of_not_lt hlen, fun hi => and_not_false hg1 hi,
      fun hi => and_not_false hg2 hi, fun hi => and_not_false hg3 hi,
      fun hi => and_not_false hg4 hi⟩

/-- If `classify` reports a lowercase character, either it was already
reported or the scanned character is lowercase. -/
theorem classify_hasLower (f : ClassFlags) (c : Char)
    (h : (classify f c).hasLower = true) :
    f.hasLower = true ∨ ('a' ≤ c ∧ c ≤ 'z') := by
  unfold classify at h
  split at h
  · exact Or.inr (by assumption)
  · split at h
    · exact Or.inl h
    · split at h
      · exact Or.inl h
      · split at h
        · exact Or.inl h
        · exact Or.inl h

/-- If `classify` reports an uppercase character, either it was already
reported or the scanned character is uppercase. -/
theorem classify_hasUpper (f : ClassFlags) (c : Char)
    (h : (classify f c).hasUpper = true) :
    f.hasUpper = true ∨ ('A' ≤ c ∧ c ≤ 'Z') := by
  unfold classify at h
  split at h
  · exact Or.inl h
  · split at h
    · exact Or.inr (by assumption)
    · split at h
      · exact Or.inl h
      · split at h
        · exact Or.inl h
        · exact Or.inl h

/-- If `classify` reports a digit, either it was already reported or the
scanned character is a digit. -/
theorem classify_hasNumber (f : ClassFlags) (c : Char)
    (h : (classify f c).hasNumber = true) :
    f.hasNumber = true ∨ ('0' ≤ c ∧ c ≤ '9') := by
  unfold classify at h
  split at h
  · exact Or.inl h
  · split at h
    · exact Or.inl h
    · split at h
      · exact Or.inr (by assumption)
      · split at h
        · exact Or.inl h
        · exact Or.inl h

/-- If `classify` reports a special character, either it was already
reported or the scanned character is in the special alphabet. -/
theorem classify_hasSpecial (f : ClassFlags) (c : Char)
    (h : (classify f c).hasSpecial = true) :
    f.hasSpecial = true ∨ specialChars.contains c = true := by
  unfold classify at h
  split at h
  · exact Or.inl h
  · split at h
    · exact Or.inl h
    · split at h
      · exact Or.inl h
      · split at h
        · exact Or.inr (by assumption)
        · exact Or.inl h

/-- A flag set after scanning a password was either set before the scan
or is witnessed by a character of the corresponding class. -/
theorem scanFlags_spec (pw : List Char) : ∀ f : ClassFlags,
    ((scanFlags f pw).hasLower = true →
      f.hasLower = true ∨ ∃ c ∈ pw, 'a' ≤ c ∧ c ≤ 'z') ∧
    ((scanFlags f pw).hasUpper = true →
      f.hasUpper = true ∨ ∃ c ∈ pw, 'A' ≤ c ∧ c ≤ 'Z') ∧
    ((scanFlags f pw).hasNumber = true →
      f.hasNumber = true ∨ ∃ c ∈ pw, '0' ≤ c ∧ c ≤ '9') ∧
    ((scanFlags f pw).hasSpecial = true →
      f.hasSpecial = true ∨ ∃ c ∈ pw, specialChars.contains c = true) := by
  induction pw with
  | nil => intro f; refine ⟨fun h => Or.inl h, fun h => Or.inl h, fun h => Or.inl h,
      fun h => Or.inl h⟩
  | cons c rest ih =>
    intro f
    obtain ⟨ih1, ih2, ih3, ih4⟩ := ih (classify f c)
    refine ⟨?_, ?_, ?_, ?_⟩
    · intro h
      rcases ih1 h with hcl | ⟨d, hd, hdp⟩
      · rcases classify_hasLower f c hcl with hf | hc
        · exact Or.inl hf
        · exact Or.inr ⟨c, List.mem_cons_self c rest, hc⟩
      · exact Or.inr ⟨d, List.mem_cons_of_mem _ hd, hdp⟩
    · intro h
      rcases ih2 h with hcl | ⟨d, hd, hdp⟩
      · rcases classify_hasUpper f c hcl with hf | hc
        · exact Or.inl hf
        · exact Or.inr ⟨c, List.mem_cons_self c rest, hc⟩
      · exact Or.inr ⟨d, List.mem_cons_of_mem _ hd, hdp⟩
    · intro h
      rcases ih3 h with hcl | ⟨d, hd, hdp⟩
      · rcases classify_hasNumber f c hcl with hf | hc
        · exact Or.inl hf
        · exact Or.inr ⟨c, List.mem_cons_self c rest, hc⟩
      · exact Or.inr ⟨d, List.mem_cons_of_mem _ hd, hdp⟩
    · intro h
      rcases ih4 h with hcl | ⟨d, hd, hdp⟩
      · rcases classify_hasSpecial f c hcl with hf | hc
        · exact Or.inl hf
        · exact Or.inr ⟨c, List.mem_cons_self c rest, hc⟩
      · exact Or.inr ⟨d, List.mem_cons_of_mem _ hd, hdp⟩

/-- C5: every password the secure generator returns successfully has at
least the configured length, contains at least one character of each
enabled character class, and contains no excluded character. -/
theorem generated_password_meets_policy
    (p : PasswordConfig) (randomAt : Nat → Nat) (fuel : Nat) (pw : List Char)
    (h : generateSecurePassword p randomAt fuel = .ok pw) :
    p.length ≤ pw.length ∧
    (p.includeLowercase = true → ∃ c ∈ pw, 'a' ≤ c ∧ c ≤ 'z') ∧
    (p.includeUppercase = true → ∃ c ∈ pw, 'A' ≤ c ∧ c ≤ 'Z') ∧
    (p.includeNumbers = true → ∃ c ∈ pw, '0' ≤ c ∧ c ≤ '9') ∧
    (p.includeSpecial = true → ∃ c ∈ pw, specialChars.contains c = true) ∧
    (∀ c ∈ pw, c ∉ p.excludeChars) := by
  unfold generateSecurePassword at h
  by_cases hcs : (buildCharset p).length = 0
  · simp [hcs] at h
  · rw [if_neg hcs] at h
    obtain ⟨hval, r, hpw⟩ := generateAux_ok p (buildCharset p) fuel randomAt pw h
    subst hpw
    have hne : buildCharset p ≠ [] := fun hnil => hcs (by rw [hnil]; rfl)
    have hmem := attemptPassword_mem (buildCharset p) p.length r hne
    obtain ⟨hlen, h1, h2, h3, h4⟩ := validatePassword_none_spec p _ hval
    have hspec := scanFlags_spec (attemptPassword (buildCharset p) p.length r)
      ⟨false, false, false, false⟩
    refine ⟨hlen, ?_, ?_, ?_, ?_, ?_⟩
    · intro hi
      rcases hspec.1 (h1 hi) with hfalse | hex
      · exact absurd hfalse (by simp)
      · exact hex
    · intro hi
      rcases hspec.2.1 (h2 hi) with hfalse | hex
      · exact absurd hfalse (by simp)
      · exact hex
    · intro hi
      rcases hspec.2.2.1 (h3 hi) with hfalse | hex
      · exact absurd hfalse (by simp)
      · exact hex
    · intro hi
      rcases hspec.2.2.2 (h4 hi) with hfalse | hex
      · exact absurd hfalse (by simp)
      · exact hex
    · intro c hc
      exact (mem_of_mem_removeExcluded p.excludeChars _ c (hmem c hc)).2

/-- C5 witness: a concrete successful generation run under `cfgGen`
returning `aA0!`. -/
theorem generated_password_meets_policy_witness :
    cfgGen.length ≤ (['a', 'A', '0', '!'] : List Char).length ∧
    (cfgGen.includeLowercase = true →
      ∃ c ∈ (['a', 'A', '0', '!'] : List Char), 'a' ≤ c ∧ c ≤ 'z') ∧
    (cfgGen.includeUppercase = true →
      ∃ c ∈ (['a', 'A', '0', '!'] : List Char), 'A' ≤ c ∧ c ≤ 'Z') ∧
    (cfgGen.includeNumbers = true →
      ∃ c ∈ (['a', 'A', '0', '!'] : List Char), '0' ≤ c ∧ c ≤ '9') ∧
    (cfgGen.includeSpecial = true →
      ∃ c ∈ (['a', 'A', '0', '!'] : List Char), specialChars.contains c = true) ∧
    (∀ c ∈ (['a', 'A', '0', '!'] : List Char), c ∉ cfgGen.excludeChars) :=
  generated_password_meets_policy cfgGen streamGen 1 ['a', 'A', '0', '!'] (by rfl)

/-- Under the contradictory policy (length 1, all four classes
required), no single-character password validates: the `switch` sets at
most one class flag, and at least one of the other three required
classes is reported missing. -/
theorem validate_single_char_contradictory (c : Char) :
    validatePassword cfgContradictory [c] ≠ none := by
  unfold validatePassword
  have hlen : ¬(([c] : List Char).length < cfgContradictory.length) := by
    simp [cfgContradictory]
  rw [if_neg hlen]
  by_cases h1 : ('a' ≤ c ∧ c ≤ 'z')
  · simp [scanFlags, classify, h1, cfgContradictory]
  · by_cases h2 : ('A' ≤ c ∧ c ≤ 'Z')
    · simp [scanFlags, classify, h1, h2, cfgContradictory]
    · by_cases h3 : ('0' ≤ c ∧ c ≤ '9')
      · simp [scanFlags, classify, h1, h2, h3, cfgContradictory]
      · by_cases h4 : c ∈ specialChars
        · simp [scanFlags, classify, h1, h2, h3, h4, cfgContradictory]
        · simp [scanFlags, classify, h1, h2, h3, h4, cfgContradictory]

/-- C6 (divergence): the source bounds the retry recursion of
`generateSecurePassword` by nothing — under the contradictory policy the
spec itself names (length 1, all four classes required), every attempt
fails validation, so for every recursion depth the call has neither
returned a password nor a distinct policy-unsatisfiable error: the Go
recursion never terminates. -/
theorem contradictory_policy_generation_never_terminates
    (randomAt : Nat → Nat) (fuel : Nat) :
    generateSecurePassword cfgContradictory randomAt fuel = GenResult.outOfFuel := by
  unfold generateSecurePassword
  rw [if_neg (by decide : ¬(buildCharset cfgContradictory).length = 0)]
  induction fuel generalizing randomAt with
  | zero => rfl
  | succ n ih =>
    have hone : attemptPassword (buildCharset cfgContradictory)
        cfgContradictory.length randomAt =
        [(buildCharset cfgContradictory).getD
          (randomAt 0 % (buildCharset cfgContradictory).length) 'x'] := rfl
    unfold generateAux
    cases hv : validatePassword cfgContradictory
        (attemptPassword (buildCharset cfgContradictory) cfgContradictory.length randomAt) with
    | none =>
      exfalso
      apply validate_single_char_contradictory
        ((buildCharset cfgContradictory).getD
          (randomAt 0 % (buildCharset cfgContradictory).length) 'x')
      rw [← hone]
      exact hv
    | some msg =>
      exact ih _

/-- C9: every log line recognized by the error-49 pattern yields an
event; when the bracketed timestamp text fails to parse, the event
carries the wall-clock time of detection, and when it parses, the
parsed time — a malformed timestamp never suppresses the event. -/
theorem malformed_timestamp_still_yields_event (now : MTime)
    (line tsText agName : List Char)
    (hm : matchError49 line = some (tsText, agName)) :
    ∃ ev, parseLogLine now line = some ev ∧
      ev.agreementName = String.mk agName ∧
      (parseTimestamp tsText = none → ev.timestamp = now) ∧
      (∀ t, parseTimestamp tsText = some t → ev.timestamp = t) := by
  unfold parseLogLine
  rw [hm]
  refine ⟨_, rfl, rfl, ?_, ?_⟩
  · intro hnone
    simp [hnone]
  · intro t ht
    simp [ht]

/-- C9 witness: the recognizable line `[x] err=49 agreement: a` has the
unparsable timestamp text `x`, and still produces an event stamped with
the detection time. -/
theorem malformed_timestamp_still_yields_event_witness :
    ∃ ev, parseLogLine (MTime.ofUnix 1700000000) malformedLine = some ev ∧
      ev.agreementName = String.mk "a".toList ∧
      (parseTimestamp "x".toList = none → ev.timestamp = MTime.ofUnix 1700000000) ∧
      (∀ t, parseTimestamp "x".toList = some t → ev.timestamp = t) :=
  malformed_timestamp_still_yields_event (MTime.ofUnix 1700000000) malformedLine
    "x".toList "a".toList (by rfl)

end LdapRepl
